import Mathlib

/-!
Verification of the `ifs_in_if_conditions` clippy lint
(`src/clippy_lints/src/ifs_in_if_conditions.rs`).

The lint walks a function body's HIR and reports `if` expressions that
occur while the visitor's `in_outer_if` flag is `false`.  We embed the
HIR fragment the lint inspects and the visitor `IfVisitor` below.

Modelling notes, matching the source line by line:

* A HIR expression is either an `if` expression (an `ExprKind::If` whose
  condition is wrapped in `ExprKind::DropTemps`, which is exactly the
  shape `clippy_utils::higher::If::hir` matches for a plain `if`), or
  any other expression kind, which the generic `intravisit::walk_expr`
  treats as an ordered list of child expressions.
* `Expr.ite sp m c t e` stores the condition `c` already unwrapped from
  its `DropTemps` wrapper, the way `higher::If` hands it to the lint.
  The wrapper node is materialised inside `walk_expr` below: rustc's
  `walk_expr` on an `If` visits the `DropTemps` node, then the
  then-branch, then the else branch, and the `DropTemps` node carries
  the condition's span (so its macro-expansion check coincides with the
  condition's).
* Each node carries a span, represented by a `Nat` identifier, and a
  Boolean `m` recording whether `in_external_macro` holds for that span.
* `span_lint_and_help` is modelled by emitting a `Finding`; the visitor
  methods return the emitted findings in order next to the final
  visitor state, replacing the `&mut self` threading of the source.
* The source's single `higher::If` branch handles a present and an
  absent else branch with one `if let Some(r#else) = r#else` inside it;
  here that branch is split into two match arms (`.none` / `.some`),
  which is the same control flow written out.
-/

mutual
/-- A HIR expression as seen by the lint.  `ite span mac cond thenB els`
models an `ExprKind::If` matched by `higher::If::hir` (condition already
unwrapped from `DropTemps`); `other span mac children` models every
other expression kind, whose generic walk visits `children` in order. -/
inductive Expr : Type where
  | ite : Nat → Bool → Expr → Expr → OptExpr → Expr
  | other : Nat → Bool → ExprList → Expr

/-- The optional else branch of an `if` expression. -/
inductive OptExpr : Type where
  | none : OptExpr
  | some : Expr → OptExpr

/-- The ordered child expressions visited by the generic walk. -/
inductive ExprList : Type where
  | nil : ExprList
  | cons : Expr → ExprList → ExprList
end

/-- Whether `in_external_macro(sess, span(e))` holds, i.e. the node's
span comes from a macro expansion. -/
def Expr.mac : Expr → Bool
  | .ite _ m _ _ _ => m
  | .other _ m _ => m

/-- The node's source span (a plain identifier in the model). -/
def Expr.span : Expr → Nat
  | .ite sp _ _ _ _ => sp
  | .other sp _ _ => sp

/-- The diagnostic record produced by `span_lint_and_help`: span of the
offending expression, lint message, and help text. -/
structure Finding where
  span : Nat
  message : String
  help : String
deriving DecidableEq

/-- The lint message passed to `span_lint_and_help`. -/
def lintMsg : String := "`if` expr in `if` condition"

/-- The help text passed to `span_lint_and_help`. -/
def lintHelp : String :=
  "consider assigning the result of the `if` to a variable and using the variable in the condition instead"

/-- The visitor state: the single mutable field of `IfVisitor`. -/
structure IfVisitor where
  in_outer_if : Bool
deriving DecidableEq

/-- Model of `IfVisitor::new`: the flag starts out `true`. -/
def IfVisitor.new : IfVisitor := ⟨true⟩

mutual
/-- Model of `IfVisitor::visit_expr`.  Returns the visitor state after the call
together with the findings emitted during it, in emission order.

Source correspondence:
* `if in_external_macro(..) { return; }` — the early return leaves the
  flag untouched and emits nothing;
* the `higher::If` branch checks `!self.in_outer_if` and lints, sets the
  flag to `false`, calls `walk_expr(self, cond)` (note: the then-branch
  is bound as `then: _` and never visited), then, if an else branch is
  present, sets the flag to `true` and recurses into it with a full
  `visit_expr` dispatch; finally the flag is set to `true`;
* the remaining branch sets the flag to `true`, calls
  `walk_expr(self, expr)` (inlined here as `visit_list` on the
  children), and finally sets the flag to `true`. -/
def visit_expr (v : IfVisitor) (e : Expr) : IfVisitor × List Finding :=
  match e with
  | .ite sp m cond _ .none =>
    if m then (v, [])
    else
      ((⟨true⟩ : IfVisitor),
        (if v.in_outer_if then [] else [⟨sp, lintMsg, lintHelp⟩])
          ++ (walk_expr ⟨false⟩ cond).2)
  | .ite sp m cond _ (.some e2) =>
    if m then (v, [])
    else
      ((⟨true⟩ : IfVisitor),
        (if v.in_outer_if then [] else [⟨sp, lintMsg, lintHelp⟩])
          ++ (walk_expr ⟨false⟩ cond).2
          ++ (visit_expr ⟨true⟩ e2).2)
  | .other _ m cs =>
    if m then (v, [])
    else ((⟨true⟩ : IfVisitor), (visit_list ⟨true⟩ cs).2)

/-- Model of `intravisit::walk_expr`: dispatch `visit_expr` on each child of `e`
with the current visitor state.  For an `If` node the children are the
`DropTemps` wrapper around the condition, the then-branch, and the else
branch, in that order.  Visiting the `DropTemps` wrapper is inlined in
`r1`: its span is the condition's span, it never matches `higher::If`,
so its `visit_expr` call returns early when `cond.mac` holds, and
otherwise sets the flag to `true`, visits the condition, and leaves the
flag `true` on exit. -/
def walk_expr (v : IfVisitor) (e : Expr) : IfVisitor × List Finding :=
  match e with
  | .ite _ _ cond thenB .none =>
    let r1 := if cond.mac then (v, ([] : List Finding))
              else ((⟨true⟩ : IfVisitor), (visit_expr ⟨true⟩ cond).2)
    let r2 := visit_expr r1.1 thenB
    (r2.1, r1.2 ++ r2.2)
  | .ite _ _ cond thenB (.some e2) =>
    let r1 := if cond.mac then (v, ([] : List Finding))
              else ((⟨true⟩ : IfVisitor), (visit_expr ⟨true⟩ cond).2)
    let r2 := visit_expr r1.1 thenB
    let r3 := visit_expr r2.1 e2
    (r3.1, r1.2 ++ r2.2 ++ r3.2)
  | .other _ _ cs => visit_list v cs

/-- Visit a list of sibling expressions in order, threading the visitor
state through, as the generic walk does. -/
def visit_list (v : IfVisitor) (es : ExprList) : IfVisitor × List Finding :=
  match es with
  | .nil => (v, [])
  | .cons e es2 =>
    let r1 := visit_expr v e
    let r2 := visit_list r1.1 es2
    (r2.1, r1.2 ++ r2.2)
end

/-- Model of `IfInIfCondition::check_fn`: if the function's own span comes from
an expansion, return before constructing a visitor; otherwise build a
fresh `IfVisitor` and walk the body. -/
def check_fn (fnSpanFromExpansion : Bool) (body : Expr) : List Finding :=
  if fnSpanFromExpansion then []
  else (visit_expr IfVisitor.new body).2

/-! ### Structural predicates used to state the claims -/

mutual
/-- Whether the subtree rooted at `e` contains any `if` expression. -/
def containsIf : Expr → Bool
  | .ite _ _ _ _ _ => true
  | .other _ _ cs => containsIfL cs

/-- Version of `containsIf` over a child list. -/
def containsIfL : ExprList → Bool
  | .nil => false
  | .cons e es => containsIf e || containsIfL es
end

mutual
/-- No `if` expression anywhere in the tree sits inside the condition
subtree of an enclosing `if`: the "zero conditional-in-condition
nesting" shape of the spec. -/
def noNest : Expr → Bool
  | .ite _ _ c t els => !containsIf c && noNest t && noNestO els
  | .other _ _ cs => noNestL cs

/-- Version of `noNest` on an optional else branch. -/
def noNestO : OptExpr → Bool
  | .none => true
  | .some e => noNest e

/-- Version of `noNest` over a child list. -/
def noNestL : ExprList → Bool
  | .nil => true
  | .cons e es => noNest e && noNestL es
end

mutual
/-- The number of `if` nodes in the tree, an upper bound for the number
of findings. -/
def countIfs : Expr → Nat
  | .ite _ _ c t els => 1 + countIfs c + countIfs t + countIfsO els
  | .other _ _ cs => countIfsL cs

/-- Version of `countIfs` on an optional else branch. -/
def countIfsO : OptExpr → Nat
  | .none => 0
  | .some e => countIfs e

/-- Version of `countIfs` over a child list. -/
def countIfsL : ExprList → Nat
  | .nil => 0
  | .cons e es => countIfs e + countIfsL es
end

/-! ### Helper lemmas -/

/-- The state returned by `visit_expr`: unchanged on the macro early
return, otherwise the flag is `true`. -/
theorem visit_expr_fst (v : IfVisitor) (e : Expr) :
    (visit_expr v e).1 = if e.mac then v else ⟨true⟩ := by
  cases e with
  | ite sp m c t els =>
    cases els <;> simp only [visit_expr, Expr.mac] <;> split <;> rfl
  | other sp m cs =>
    simp only [visit_expr, Expr.mac]
    split <;> rfl

mutual
/-- A subtree with no `if` node yields no findings, whatever the state. -/
theorem visit_noIf (v : IfVisitor) (e : Expr) (h : containsIf e = false) :
    (visit_expr v e).2 = [] := by
  cases e with
  | ite sp m c t els => simp [containsIf] at h
  | other sp m cs =>
    simp only [containsIf] at h
    simp only [visit_expr]
    split
    · rfl
    · simpa using list_noIf ⟨true⟩ cs h

/-- A subtree with no `if` node yields no findings under the generic
walk either. -/
theorem walk_noIf (v : IfVisitor) (e : Expr) (h : containsIf e = false) :
    (walk_expr v e).2 = [] := by
  cases e with
  | ite sp m c t els => simp [containsIf] at h
  | other sp m cs =>
    simp only [containsIf] at h
    simp only [walk_expr]
    exact list_noIf v cs h

/-- Sibling lists with no `if` node yield no findings. -/
theorem list_noIf (v : IfVisitor) (es : ExprList) (h : containsIfL es = false) :
    (visit_list v es).2 = [] := by
  cases es with
  | nil => rfl
  | cons e es2 =>
    simp only [containsIfL, Bool.or_eq_false_iff] at h
    simp only [visit_list]
    simp [visit_noIf v e h.1, list_noIf (visit_expr v e).1 es2 h.2]
end

mutual
/-- Starting from a `true` flag, a tree with no conditional-in-condition
nesting yields no findings. -/
theorem visit_noNest (e : Expr) (h : noNest e = true) :
    (visit_expr ⟨true⟩ e).2 = [] := by
  cases e with
  | ite sp m c t els =>
    cases els with
    | none =>
      simp only [noNest, noNestO, Bool.and_eq_true, Bool.not_eq_true'] at h
      simp only [visit_expr]
      split
      · rfl
      · simp [walk_noIf ⟨false⟩ c h.1.1]
    | some e2 =>
      simp only [noNest, noNestO, Bool.and_eq_true, Bool.not_eq_true'] at h
      simp only [visit_expr]
      split
      · rfl
      · simp [walk_noIf ⟨false⟩ c h.1.1, visit_noNest e2 h.2]
  | other sp m cs =>
    simp only [noNest] at h
    simp only [visit_expr]
    split
    · rfl
    · simpa using list_noNest cs h

/-- Starting from a `true` flag, sibling lists with no nesting yield no
findings. -/
theorem list_noNest (es : ExprList) (h : noNestL es = true) :
    (visit_list ⟨true⟩ es).2 = [] := by
  cases es with
  | nil => rfl
  | cons e es2 =>
    simp only [noNestL, Bool.and_eq_true] at h
    simp only [visit_list]
    have h1 := visit_noNest e h.1
    have hf : (visit_expr ⟨true⟩ e).1 = ⟨true⟩ := by
      rw [visit_expr_fst]; split <;> rfl
    rw [hf] at *
    simp [h1, hf, list_noNest es2 h.2]
end

mutual
/-- Each finding comes from a distinct `if` node, so the number of
findings of a visit is bounded by the number of `if` nodes. -/
theorem visit_len (v : IfVisitor) (e : Expr) :
    ((visit_expr v e).2).length ≤ countIfs e := by
  cases e with
  | ite sp m c t els =>
    cases els with
    | none =>
      simp only [visit_expr, countIfs, countIfsO]
      split
      · simp
      · have h1 := walk_len ⟨false⟩ c
        simp only [List.length_append]
        split <;> simp <;> omega
    | some e2 =>
      simp only [visit_expr, countIfs, countIfsO]
      split
      · simp
      · have h1 := walk_len ⟨false⟩ c
        have h2 := visit_len ⟨true⟩ e2
        simp only [List.length_append]
        split <;> simp <;> omega
  | other sp m cs =>
    simp only [visit_expr, countIfs]
    split
    · simp
    · simpa using list_len ⟨true⟩ cs
termination_by sizeOf e

/-- The finding count of a generic walk is bounded by the number of
`if` nodes. -/
theorem walk_len (v : IfVisitor) (e : Expr) :
    ((walk_expr v e).2).length ≤ countIfs e := by
  cases e with
  | ite sp m c t els =>
    cases els with
    | none =>
      simp only [walk_expr, countIfs, countIfsO]
      split
      · have h2 := visit_len v t
        simp
        omega
      · have h1 := visit_len (⟨true⟩ : IfVisitor) c
        have h2 := visit_len (⟨true⟩ : IfVisitor) t
        simp
        omega
    | some e2 =>
      simp only [walk_expr, countIfs, countIfsO]
      split
      · have h2 := visit_len v t
        have h3 := visit_len (visit_expr v t).1 e2
        simp
        omega
      · have h1 := visit_len (⟨true⟩ : IfVisitor) c
        have h2 := visit_len (⟨true⟩ : IfVisitor) t
        have h3 := visit_len (visit_expr (⟨true⟩ : IfVisitor) t).1 e2
        simp
        omega
  | other sp m cs =>
    simp only [walk_expr, countIfs]
    exact list_len v cs
termination_by sizeOf e

/-- The finding count of a sibling list is bounded by its number of
`if` nodes. -/
theorem list_len (v : IfVisitor) (es : ExprList) :
    ((visit_list v es).2).length ≤ countIfsL es := by
  cases es with
  | nil => simp [visit_list, countIfsL]
  | cons e es2 =>
    have h1 := visit_len v e
    have h2 := list_len (visit_expr v e).1 es2
    simp only [visit_list, countIfsL, List.length_append]
    omega
termination_by sizeOf es
end

/-! ### Concrete input trees used by the claims -/

/-- A leaf expression of no further structure (literal, path, ...). -/
def leaf (sp : Nat) : Expr := .other sp false .nil

/-- A non-`if` expression with one child (block, unary operator, ...). -/
def node1 (sp : Nat) (e : Expr) : Expr := .other sp false (.cons e .nil)

/-- A non-`if` expression with two children (binary operator, ...). -/
def node2 (sp : Nat) (a b : Expr) : Expr := .other sp false (.cons a (.cons b .nil))

/-- The expression `if b' { } else ...` with span 5: the violating inner conditional of
the C1 input. -/
def c1innerB : Expr := .ite 5 false (leaf 6) (leaf 7) .none

/-- The expression `(if b' { }) > 0`. -/
def c1gt : Expr := node2 4 c1innerB (leaf 8)

/-- The expression `if (if b' { }) > 0 { }` with span 3: a conditional-in-condition
violation. -/
def c1midIf : Expr := .ite 3 false c1gt (leaf 9) .none

/-- The expression `if a { if (if b' { }) > 0 { } }`: the violation sits inside the
then-branch of the outer conditional. -/
def c1outer : Expr := .ite 0 false (leaf 1) (node1 2 c1midIf) .none

/-- Function body wrapping `c1outer`. -/
def c1body : Expr := node1 10 c1outer

/-- The expression `if y {1} else {0}` with span 20: the inner conditional of the C2
input. -/
def c2inner : Expr := .ite 20 false (leaf 21) (leaf 22) (.some (leaf 23))

/-- The expression `(if y {1} else {0}) > 0`. -/
def c2gt : Expr := node2 24 c2inner (leaf 25)

/-- The expression `x && (if y {1} else {0}) > 0`. -/
def c2and : Expr := node2 26 (leaf 27) c2gt

/-- The expression `if x && (if y {1} else {0}) > 0 { }`. -/
def c2outer : Expr := .ite 28 false c2and (leaf 29) .none

/-- Function body wrapping `c2outer`. -/
def c2body : Expr := node1 30 c2outer

/-- The expression `if a' {1} else {0}` with span 40: a conditional forming the whole
condition of the C3 counterexample input. -/
def c3inner : Expr := .ite 40 false (leaf 41) (leaf 42) (.some (leaf 43))

/-- The expression `if (if a' {1} else {0}) { }`: the inner conditional is the whole
condition of the outer one. -/
def c3outer : Expr := .ite 44 false c3inner (leaf 45) .none

/-- Function body wrapping `c3outer`. -/
def c3body : Expr := node1 46 c3outer

/-- The expression `if b {1} else {0}` with span 61: the inner conditional of the C7
input. -/
def c7bIf : Expr := .ite 61 false (leaf 62) (leaf 63) (.some (leaf 64))

/-- The expression `(if b {1} else {0}) > 0`. -/
def c7gt : Expr := node2 65 c7bIf (leaf 66)

/-- The expression `if (if b {1} else {0}) > 0 {2} else {3}`: the else-if arm. -/
def c7elif : Expr := .ite 67 false c7gt (leaf 68) (.some (leaf 69))

/-- The expression `if a {1} else if (if b {1} else {0}) > 0 {2} else {3}`. -/
def c7outer : Expr := .ite 60 false (leaf 70) (leaf 71) (.some c7elif)

/-- Function body wrapping `c7outer`. -/
def c7body : Expr := node1 72 c7outer

/-- The expression `if c' {1} else {0}` with span 75: a second violation placed deeper
in the else-if chain. -/
def c7bIf2 : Expr := .ite 75 false (leaf 76) (leaf 77) (.some (leaf 78))

/-- A further else-if arm `if (if c' {1} else {0}) > 0 { } else { }`. -/
def c7elif2 : Expr := .ite 73 false (node2 74 c7bIf2 (leaf 79)) (leaf 80) (.some (leaf 81))

/-- The C7 else-if arm, now chaining into `c7elif2`. -/
def c7elifB : Expr := .ite 67 false c7gt (leaf 68) (.some c7elif2)

/-- The extended else-if chain with two violations. -/
def c7outerB : Expr := .ite 60 false (leaf 70) (leaf 71) (.some c7elifB)

/-- Function body wrapping `c7outerB`. -/
def c7bodyB : Expr := node1 72 c7outerB

/-- An outer conditional whose span is a macro expansion and whose
condition contains another conditional. -/
def c4outer : Expr :=
  .ite 90 true (node1 91 (Expr.ite 92 false (leaf 93) (leaf 94) .none)) (leaf 95) .none

/-- A node originating from a macro expansion. -/
def c5macNode : Expr := .other 96 true .nil

/-- The expression `if a { if b {1} else {0} }`: the inner conditional sits in the
then-branch, not in the condition, so the tree has no nesting. -/
def c6w : Expr :=
  .ite 100 false (leaf 101)
    (node1 102 (Expr.ite 103 false (leaf 104) (leaf 105) (.some (leaf 106)))) .none

/-- Function body wrapping `c6w`. -/
def c6wbody : Expr := node1 107 c6w

/-! ### The claims -/

/-- C1 counterexample: the input `if a { if (if b' { }) > 0 { } }` has a
conditional-in-condition violation inside the then-branch of the outer
conditional, yet the traversal emits no finding at all, because
`visit_expr` never visits a conditional's then-branch. -/
theorem c1_counterexample : check_fn false c1body = [] := by decide

/-- C1 (amended): for every conditional node processed by `visit_expr`,
the then-branch is not visited at all: the result of the call is
independent of the then-branch, so conditionals nested in condition
slots that lie inside a then-branch are never detected. -/
theorem c1_then_branch_not_visited (v : IfVisitor) (sp : Nat) (m : Bool)
    (c t t' : Expr) (els : OptExpr) :
    visit_expr v (.ite sp m c t els) = visit_expr v (.ite sp m c t' els) := by
  cases els <;> simp only [visit_expr]

/-- C2 counterexample: for `if x && (if y {1} else {0}) > 0 { }` the
traversal emits no finding for the inner conditional (span 20): the
condition-slot context is NOT preserved while descending through the
`&&` expression's generic children, because visiting each non-`if`
child resets the flag to `true` before descending into it. -/
theorem c2_counterexample :
    Finding.mk 20 lintMsg lintHelp ∉ check_fn false c2body := by decide

/-- C2 (amended): for the input `if x && (if y {1} else {0}) > 0 { }`
the traversal emits no finding at all: the generic visit of each
non-conditional node inside the condition sets the flag back to `true`,
so the inner conditional is reached with the flag `true`. -/
theorem c2_inner_conditional_not_flagged : check_fn false c2body = [] := by decide

/-- C3 counterexample: when a conditional directly forms the WHOLE of
the outer condition, as in `if (if a' {1} else {0}) { }`, the traversal
emits no finding: the generic walk of the condition dispatches
`visit_expr` only on the condition's children, never on the condition
node itself. -/
theorem c3_counterexample : check_fn false c3body = [] := by decide

/-- C3 (amended): when the inner conditional is the first generically
visited child of the outer condition, as in
`if (if a {1} else {0}) > 5 { }`, the traversal emits exactly one
finding, and its span is the span of the inner conditional; a
conditional forming the whole condition is not flagged. -/
theorem c3_first_child_of_condition_flagged
    (s0 s1 s2 s3 s4 s5 s6 s7 s8 : Nat) :
    check_fn false (Expr.other s7 false (.cons
      (Expr.ite s0 false
        (Expr.other s2 false (.cons
          (Expr.ite s1 false (Expr.other s3 false .nil) (Expr.other s4 false .nil)
            (.some (Expr.other s5 false .nil)))
          (.cons (Expr.other s6 false .nil) .nil)))
        (Expr.other s8 false .nil) .none) .nil))
    = [⟨s1, lintMsg, lintHelp⟩] := rfl

/-- C4: for every node whose span is a macro expansion, `visit_expr`
stops immediately: it leaves the state untouched and emits no finding
from the node or any of its descendants. -/
theorem c4_macro_expansion_suppressed (v : IfVisitor) (e : Expr)
    (h : e.mac = true) : visit_expr v e = (v, []) := by
  cases e with
  | ite sp m c t els =>
    simp only [Expr.mac] at h
    cases els <;> simp [visit_expr, h]
  | other sp m cs =>
    simp only [Expr.mac] at h
    simp [visit_expr, h]

/-- C4 witness: an outer conditional inside a macro expansion whose
condition contains another conditional yields zero findings, even when
visited with the flag `false`. -/
theorem c4_witness :
    c4outer.mac = true ∧ visit_expr ⟨false⟩ c4outer = (⟨false⟩, []) :=
  ⟨rfl, c4_macro_expansion_suppressed ⟨false⟩ c4outer rfl⟩

/-- C5 counterexample: visiting a macro-expansion node with the flag
`false` returns with the flag still `false`: the macro early return
happens before the final `self.in_outer_if = true` assignment, so the
flag is NOT restored on that path. -/
theorem c5_counterexample :
    ¬ (visit_expr ⟨false⟩ c5macNode).1.in_outer_if = true := by decide

/-- C5 (amended): for every node that is not a macro expansion, the
flag is `true` when `visit_expr` returns, on both the conditional and
the generic branch of the dispatch; the macro branch instead returns
with the flag unchanged. -/
theorem c5_flag_restored_unless_macro (v : IfVisitor) (e : Expr)
    (h : e.mac = false) : (visit_expr v e).1.in_outer_if = true := by
  cases e with
  | ite sp m c t els =>
    simp only [Expr.mac] at h
    cases els <;> simp [visit_expr, h, IfVisitor.in_outer_if]
  | other sp m cs =>
    simp only [Expr.mac] at h
    simp [visit_expr, h, IfVisitor.in_outer_if]

/-- C5 witness: visiting a non-macro leaf with the flag `false` returns
with the flag `true`. -/
theorem c5_witness : (visit_expr ⟨false⟩ (leaf 97)).1.in_outer_if = true :=
  c5_flag_restored_unless_macro ⟨false⟩ (leaf 97) rfl

/-- C6: a function body with zero conditional-in-condition nesting
produces zero findings. -/
theorem c6_no_nesting_no_findings (fm : Bool) (e : Expr)
    (h : noNest e = true) : check_fn fm e = [] := by
  cases fm with
  | true => rfl
  | false =>
    show (visit_expr IfVisitor.new e).2 = []
    exact visit_noNest e h

/-- C6 witness: `if a { if b {1} else {0} }` has the inner conditional
in the then-branch, not in a condition slot, and yields zero findings. -/
theorem c6_witness : noNest c6wbody = true ∧ check_fn false c6wbody = [] :=
  ⟨by decide, c6_no_nesting_no_findings false c6wbody (by decide)⟩

/-- C7: for `if a {1} else if (if b {1} else {0}) > 0 {2} else {3}` the
traversal emits exactly one finding, spanning the inner conditional
(span 61); and on the chain extended with a further else-if containing
a second violation (span 75), both findings are emitted, showing the
else-if chain continues to be walked. -/
theorem c7_else_if_chain :
    check_fn false c7body = [⟨61, lintMsg, lintHelp⟩] ∧
    check_fn false c7bodyB = [⟨61, lintMsg, lintHelp⟩, ⟨75, lintMsg, lintHelp⟩] := by
  exact ⟨by decide, by decide⟩

/-- C8: the traversal result is a deterministic function of the input
tree: two runs on the same unmodified tree, each from a freshly
constructed visitor, yield identical finding lists. -/
theorem c8_deterministic_fresh_runs (body : Expr) (v1 v2 : IfVisitor)
    (h1 : v1 = IfVisitor.new) (h2 : v2 = IfVisitor.new) :
    (visit_expr v1 body).2 = (visit_expr v2 body).2 := by
  subst h1; subst h2; rfl

/-- C8 witness: two fresh runs on the C1 body agree. -/
theorem c8_witness :
    (visit_expr IfVisitor.new c1body).2 = (visit_expr IfVisitor.new c1body).2 :=
  c8_deterministic_fresh_runs c1body IfVisitor.new IfVisitor.new rfl rfl

/-- C9: the traversal is a total function: on every finite tree it
returns a finite list of findings, whose length is bounded by the
number of `if` nodes in the tree. -/
theorem c9_terminates_finite_findings (fm : Bool) (e : Expr) :
    (check_fn fm e).length ≤ countIfs e := by
  cases fm with
  | true => simp [check_fn]
  | false =>
    show ((visit_expr IfVisitor.new e).2).length ≤ countIfs e
    exact visit_len IfVisitor.new e

/-- C10: if the analyzed function's own span comes from an expansion,
`check_fn` returns before constructing a visitor, so every body — even
one full of conditionals written outside any macro — produces zero
findings. -/
theorem c10_fn_span_expansion_no_findings (body : Expr) :
    check_fn true body = [] := rfl
